import Mathlib

/-!
Verification development for `cvat-core/src/indexed-storage.ts`
(class `CVATIndexedStorage`): a partitioned, IndexedDB-backed browser cache.

The JavaScript promise executors are modelled as terminating interpreters.
Each public method maps an environment (the outcomes that the storage engine
would deliver for this call), together with the current state, to a triple of
the new state, the settled outcome of the returned promise, and the list of
engine calls issued.  JavaScript promise semantics are kept faithfully: a
`resolve(x)` that is not followed by `return` lets the executor keep running,
so the model records the first settlement as the promise outcome while still
applying every later state change and engine call, exactly as the browser
would.  A `throw` inside the promise executor, before any settlement, rejects
the promise.
-/

/-- The `DatabaseStore` enum (indexed-storage.ts, lines 7-16).  Eight
partition tags. -/
inductive DatabaseStore
  | PROJECTS_PREVIEW
  | TASKS_PREVIEW
  | JOBS_PREVIEW
  | CLOUDSTORAGES_PREVIEW
  | FUNCTIONS_PREVIEW
  | COMPRESSED_JOB_CHUNKS
  | COMPRESSED_JOB_IMAGES
  | CONTEXT_IMAGES
  deriving DecidableEq

/-- The string value carried by each enum member (used as the physical object
store name inside the database). -/
def DatabaseStore.value : DatabaseStore → String
  | .PROJECTS_PREVIEW => "projects_preview"
  | .TASKS_PREVIEW => "tasks_preview"
  | .JOBS_PREVIEW => "jobs_preview"
  | .CLOUDSTORAGES_PREVIEW => "cloudstorages_preview"
  | .FUNCTIONS_PREVIEW => "functions_preview"
  | .COMPRESSED_JOB_CHUNKS => "compressed_job_chunks"
  | .COMPRESSED_JOB_IMAGES => "compressed_job_images"
  | .CONTEXT_IMAGES => "context_images"

/-- JavaScript values crossing the cache boundary: `Blob`s (byte content plus
MIME type), `ArrayBuffer`s (raw bytes), the plain record
`\x7b arrayBuffer, type \x7d` produced by `blob2ArrayBuffer`, and strings
(standing in for payloads of any other type, used to exercise validator
failures). -/
inductive Value
  | blob (bytes : List Nat) (ty : String)
  | arrayBuffer (bytes : List Nat)
  | serializedBlob (bytes : List Nat) (ty : String)
  | str (s : String)
  deriving DecidableEq

/-- The constructor argument of `isInstance`; only `Blob` and `ArrayBuffer`
are used by the store configuration table. -/
inductive JSConstructor
  | BlobCls
  | ArrayBufferCls
  deriving DecidableEq

/-- `isInstance` (lines 28-36): the validation check.  `true` means the call
returns normally; `false` means it throws a validation error. -/
def isInstance : Value → JSConstructor → Bool
  | .blob _ _, .BlobCls => true
  | .arrayBuffer _, .ArrayBufferCls => true
  | _, _ => false

/-- `blob2ArrayBuffer` (lines 38-45): decompose a Blob into its raw bytes and
MIME type.  Called on a non-Blob the `.arrayBuffer()` method is missing and
the promise rejects: `none` models the rejection (in practice the validator
runs first, so this branch is unreachable through the public API). -/
def blob2ArrayBuffer : Value → Option Value
  | .blob bytes ty => some (.serializedBlob bytes ty)
  | _ => none

/-- `arrayBuffer2Blob` (lines 47-49): rebuild the Blob from the stored
record.  Records of Blob partitions are only ever written through
`blob2ArrayBuffer`, so only the serialized-Blob shape occurs; any other shape
maps to `none`. -/
def arrayBuffer2Blob : Value → Option Value
  | .serializedBlob bytes ty => some (.blob bytes ty)
  | _ => none

/-- One entry of the `#storeConfiguration` table: key path, validator
(`true` = accepted), serializer and deserializer (`none` = the promise
rejects / the call throws). -/
structure StoreConf where
  keyPath : String
  validator : Value → Bool
  serialize : Value → Option Value
  deserialize : Value → Option Value

/-- Configuration shared by the five preview partitions (lines 59-98; the
five source entries are textually identical up to the store name that appears
in the validator's error message). -/
def blobStoreConf : StoreConf where
  keyPath := "id"
  validator := fun el => isInstance el .BlobCls
  serialize := blob2ArrayBuffer
  deserialize := arrayBuffer2Blob

/-- Configuration shared by `COMPRESSED_JOB_CHUNKS` and `CONTEXT_IMAGES`
(lines 99-110): identity serialization of `ArrayBuffer`s
(`Promise.resolve(el)`). -/
def bufferStoreConf : StoreConf where
  keyPath := "id"
  validator := fun el => isInstance el .ArrayBufferCls
  serialize := fun el => some el
  deserialize := fun el => some el

/-- `#storeConfiguration` (lines 58-111).  The table holds entries for seven
of the eight enum members; `COMPRESSED_JOB_IMAGES` has no entry, so indexing
the table with it yields `undefined`, modelled by `none`. -/
def storeConfiguration : DatabaseStore → Option StoreConf
  | .PROJECTS_PREVIEW => some blobStoreConf
  | .TASKS_PREVIEW => some blobStoreConf
  | .JOBS_PREVIEW => some blobStoreConf
  | .CLOUDSTORAGES_PREVIEW => some blobStoreConf
  | .FUNCTIONS_PREVIEW => some blobStoreConf
  | .COMPRESSED_JOB_CHUNKS => some bufferStoreConf
  | .COMPRESSED_JOB_IMAGES => none
  | .CONTEXT_IMAGES => some bufferStoreConf

/-- Settlement status of the cached `#initializationPromise`. -/
inductive InitStatus
  | pending
  | success
  | failure
  deriving DecidableEq

/-- The mutable state of the singleton `CVATIndexedStorage` instance plus the
browser-side contents of the `cvat_db` database.

* `db` models `#db`: `none` is `null`; `some true` is an open connection and
  `some false` a connection that has been closed (by `close()`) while the
  field still references it.
* `database` models the on-disk record set, as `(store name, id, payload)`
  triples; an open connection reads and writes through to it. -/
structure StorageState where
  db : Option Bool
  dbUpgradedAnotherTab : Bool
  isQuotaExceed : Bool
  initializationPromise : Option InitStatus
  database : List (String × String × Value)
  deriving DecidableEq

/-- Outcome the engine delivers for one transaction: commit, abort carrying
an error name (e.g. "QuotaExceededError"), or a bubbled request error. -/
inductive TxnOutcome
  | success
  | abort (errorName : String)
  | error
  deriving DecidableEq

/-- The environment of one call: which outcomes the browser storage engine
would deliver for each kind of request issued during the call. -/
structure Env where
  indexedDBAvailable : Bool
  openSucceeds : Bool
  putOutcome : TxnOutcome
  getOutcome : TxnOutcome
  deleteSucceeds : Bool

/-- Observable calls against the storage engine. -/
inductive EngineCall
  | openDB
  | deleteDB
  | txnPut (store : String)
  | txnGet (store : String)
  deriving DecidableEq

/-- Settled outcome of a JavaScript promise. -/
inductive Outcome (α : Type)
  | resolved (a : α)
  | rejected
  deriving DecidableEq

/-- `objectStore.put(\x7b id, payload \x7d)`: upsert of a record keyed by
`(store, id)`. -/
def putRecord (database : List (String × String × Value)) (store id : String)
    (payload : Value) : List (String × String × Value) :=
  (store, id, payload) :: database.filter (fun r => !(r.1 == store && r.2.1 == id))

/-- `objectStore.get(id)`: lookup of the record keyed by `(store, id)`;
`none` models the `undefined` result for an absent key. -/
def getRecord (database : List (String × String × Value)) (store id : String) :
    Option Value :=
  (database.find? (fun r => r.1 == store && r.2.1 == id)).map (fun r => r.2.2)

/-- `load` (lines 113-165), run until the returned promise settles.  The
boolean result is `true` when the promise resolves and `false` when it
rejects.  Faithful points: a rejected `#initializationPromise` is cached and
returned again (it is never reset to `null`), and a non-null `#db` — even a
closed connection — short-circuits to an immediate resolve.  The `pending`
branch models a caller awaiting the already in-flight open, which settles
according to the environment without issuing a second `indexedDB.open`. -/
def load (env : Env) (s : StorageState) : StorageState × Bool × List EngineCall :=
  if !env.indexedDBAvailable || s.dbUpgradedAnotherTab then (s, false, [])
  else if s.db.isSome then (s, true, [])
  else
    match s.initializationPromise with
    | some .success => (s, true, [])
    | some .failure => (s, false, [])
    | some .pending =>
        if env.openSucceeds then
          ({ s with db := some true, initializationPromise := some .success }, true, [])
        else
          ({ s with initializationPromise := some .failure }, false, [])
    | none =>
        if env.openSucceeds then
          ({ s with db := some true, initializationPromise := some .success }, true,
            [.openDB])
        else
          ({ s with initializationPromise := some .failure }, false, [.openDB])

/-- The synchronous prefix of `load` (lines 113-124): everything that runs
before the open request completes.  The boolean result records whether this
call issued a new `indexedDB.open`; when it did, `#initializationPromise` now
holds the in-flight (pending) promise.  Used to state the
concurrent-initialization property. -/
def loadSync (indexedDBAvailable : Bool) (s : StorageState) : StorageState × Bool :=
  if !indexedDBAvailable || s.dbUpgradedAnotherTab then (s, false)
  else if s.db.isSome then (s, false)
  else
    match s.initializationPromise with
    | some _ => (s, false)
    | none => ({ s with initializationPromise := some .pending }, true)

/-- A burst of concurrent `load` invocations (one per caller, each sampling
its own `indexedDB` availability) with no completion event delivered in
between; counts the `indexedDB.open` calls issued. -/
def runLoadCalls (avails : List Bool) (s : StorageState) : StorageState × Nat :=
  match avails with
  | [] => (s, 0)
  | a :: rest =>
      let p := loadSync a s
      let q := runLoadCalls rest p.1
      (q.1, (if p.2 then 1 else 0) + q.2)

/-- The `onversionchange` handler installed on a successful open
(lines 137-151): close the connection, drop the reference, and set the
cross-tab invalidation flag. -/
def onversionchange (s : StorageState) : StorageState :=
  { s with db := none, dbUpgradedAnotherTab := true }

/-- `setItem` (lines 167-215).  The guard `resolve(false)` for a disabled
cache or an exceeded quota is not followed by `return`, so the executor keeps
running: the early settlement (when present) is the promise outcome, but
`load`, validation, serialization and the `put` transaction still run and
still mutate state.  Every throw inside the `then` callback is caught
(`try/catch` plus the `.catch` of the serialize chain) and resolves `false`;
a transaction on a null or closed connection throws and is handled the same
way. -/
def setItem (enableIndexedDBCache : Bool) (env : Env) (s : StorageState)
    (storeName : DatabaseStore) (id : String) (object : Value) :
    StorageState × Outcome Bool × List EngineCall :=
  let early : Option (Outcome Bool) :=
    if !enableIndexedDBCache || s.isQuotaExceed then some (.resolved false) else none
  let L := load env s
  let s1 := L.1
  if !L.2.1 then (s1, early.getD (.resolved false), L.2.2)
  else
    match storeConfiguration storeName with
    | none => (s1, early.getD (.resolved false), L.2.2)
    | some conf =>
      if !conf.validator object then (s1, early.getD (.resolved false), L.2.2)
      else
        match conf.serialize object with
        | none => (s1, early.getD (.resolved false), L.2.2)
        | some serialized =>
          match s1.db with
          | some true =>
            let calls := L.2.2 ++ [.txnPut storeName.value]
            match env.putOutcome with
            | .success =>
                ({ s1 with
                    database := putRecord s1.database storeName.value id serialized },
                  early.getD (.resolved true), calls)
            | .abort errorName =>
                (if errorName == "QuotaExceededError" then
                    { s1 with isQuotaExceed := true }
                  else s1,
                  early.getD (.resolved false), calls)
            | .error => (s1, early.getD (.resolved false), calls)
          | _ => (s1, early.getD (.resolved false), L.2.2)

/-- `getItem` (lines 217-274).  The two guards resolve `null` without
returning, and then — crucially — the executor destructures
`this.#storeConfiguration[storeName]` outside any `try/catch`: for a store
without a configuration entry this throws on `undefined`, so the promise
rejects unless one of the guards already settled it; no `load` call and no
engine call happens in that case.  For configured stores every later fault
resolves `null`. -/
def getItem (enableIndexedDBCache : Bool) (env : Env) (s : StorageState)
    (storeName : DatabaseStore) (id : String) :
    StorageState × Outcome (Option Value) × List EngineCall :=
  let early : Option (Outcome (Option Value)) :=
    if !enableIndexedDBCache || s.isQuotaExceed then some (.resolved none) else none
  match storeConfiguration storeName with
  | none => (s, early.getD .rejected, [])
  | some conf =>
    let L := load env s
    let s1 := L.1
    if !L.2.1 then (s1, early.getD (.resolved none), L.2.2)
    else
      match s1.db with
      | some true =>
        let calls := L.2.2 ++ [.txnGet storeName.value]
        match env.getOutcome with
        | .success =>
          match getRecord s1.database storeName.value id with
          | none => (s1, early.getD (.resolved none), calls)
          | some payload =>
            match conf.deserialize payload with
            | some v => (s1, early.getD (.resolved (some v)), calls)
            | none => (s1, early.getD (.resolved none), calls)
        | _ => (s1, early.getD (.resolved none), calls)
      | _ => (s1, early.getD (.resolved none), L.2.2)

/-- `clear` (lines 297-312).  Closes the connection when present — but keeps
the `#db` reference, now pointing at a closed connection — deletes the
database, and on success runs `load()` before resolving.  A deletion failure
is the one propagated rejection.  Note what is *not* here: `#db` is not set
to `null`, `#initializationPromise` is not reset, and `#isQuotaExceed` is not
cleared. -/
def clear (env : Env) (s : StorageState) : StorageState × Outcome Unit × List EngineCall :=
  let s0 := if s.db.isSome then { s with db := some false } else s
  if !env.deleteSucceeds then (s0, .rejected, [.deleteDB])
  else
    let s1 := { s0 with database := [] }
    let L := load env s1
    (L.1, .resolved (), .deleteDB :: L.2.2)

/-- The state of the freshly constructed singleton (lines 52-57): no
connection, no flags set, no cached promise, empty database. -/
def initialState : StorageState where
  db := none
  dbUpgradedAnotherTab := false
  isQuotaExceed := false
  initializationPromise := none
  database := []

/-- An environment in which every engine request succeeds. -/
def envAllOk : Env where
  indexedDBAvailable := true
  openSucceeds := true
  putOutcome := .success
  getOutcome := .success
  deleteSucceeds := true

/-- The state after one successful `load` from the initial state: an open
connection over an empty database. -/
def openedState : StorageState := (load envAllOk initialState).1

/-! ## Helper lemmas -/

/-- `load` touches only `#db` and `#initializationPromise`: the database
contents, the quota flag and the invalidation flag are untouched. -/
theorem load_preserves (env : Env) (s : StorageState) :
    ((load env s).1).database = s.database ∧
    ((load env s).1).isQuotaExceed = s.isQuotaExceed ∧
    ((load env s).1).dbUpgradedAnotherTab = s.dbUpgradedAnotherTab := by
  unfold load
  split
  · exact ⟨rfl, rfl, rfl⟩
  · split
    · exact ⟨rfl, rfl, rfl⟩
    · split <;> first
        | exact ⟨rfl, rfl, rfl⟩
        | (split <;> exact ⟨rfl, rfl, rfl⟩)

/-- A `put` followed by a `get` at the same store and key finds the record
just written. -/
theorem getRecord_putRecord (database : List (String × String × Value))
    (store id : String) (payload : Value) :
    getRecord (putRecord database store id payload) store id = some payload := by
  simp [getRecord, putRecord, List.find?_cons]

/-- `loadSync` either leaves the state unchanged and issues no open, or the
cached promise was absent, one open is issued and the in-flight promise is
now cached. -/
theorem loadSync_cases (a : Bool) (s : StorageState) :
    loadSync a s = (s, false) ∨
      (s.initializationPromise = none ∧
        loadSync a s = ({ s with initializationPromise := some .pending }, true)) := by
  unfold loadSync
  split
  · exact Or.inl rfl
  · split
    · exact Or.inl rfl
    · split
      · exact Or.inl rfl
      · next h => exact Or.inr ⟨h, rfl⟩

/-- Once a promise (in any status) is cached, a burst of further `load` calls
issues no open at all. -/
theorem runLoadCalls_zero (avails : List Bool) (s : StorageState)
    (h : s.initializationPromise.isSome) : (runLoadCalls avails s).2 = 0 := by
  induction avails generalizing s with
  | nil => rfl
  | cons a rest ih =>
      rcases loadSync_cases a s with hc | ⟨hn, _⟩
      · simp [runLoadCalls, hc, ih s h]
      · rw [hn] at h; exact absurd h (by simp)

/-! ## Claim theorems -/

/-- Claim C1: the claim states that `getItem(partition, key)` never rejects
for any partition tag of the `DatabaseStore` enumeration.  The code violates
it: `COMPRESSED_JOB_IMAGES` has no entry in the store configuration table,
and `getItem` destructures that entry outside any `try/catch`, so — with the
cache enabled and the quota flag unset — the returned promise rejects with a
`TypeError` instead of resolving with the absence marker. -/
theorem getItem_compressed_job_images_rejects :
    (getItem true envAllOk initialState .COMPRESSED_JOB_IMAGES "some-key").2.1 =
      .rejected ∧
    (getItem true envAllOk initialState .COMPRESSED_JOB_IMAGES "some-key").2.2 = [] := by
  constructor <;> rfl

/-- Claim C2: the claim states that with the global cache flag off, `setItem`
resolves `false` and `getItem` resolves `null` with no storage-engine call.
The resolution values are as claimed, but the guard `resolve(false)` is not
followed by `return`, so the code still opens the database, runs a
read-write transaction and `put`s the record: from the initial state with the
flag off, `setItem` resolves `false` yet issues an open and a put and leaves
the record stored, and `getItem` resolves `null` yet issues an open and a
get. -/
theorem setItem_disabled_still_calls_engine :
    (setItem false envAllOk initialState .PROJECTS_PREVIEW "k"
        (.blob [1] "image/png")).2.1 = .resolved false ∧
    (setItem false envAllOk initialState .PROJECTS_PREVIEW "k"
        (.blob [1] "image/png")).2.2 =
      [.openDB, .txnPut "projects_preview"] ∧
    (setItem false envAllOk initialState .PROJECTS_PREVIEW "k"
        (.blob [1] "image/png")).1.database =
      [("projects_preview", "k", Value.serializedBlob [1] "image/png")] ∧
    (getItem false envAllOk initialState .PROJECTS_PREVIEW "k").2.1 =
      .resolved none ∧
    (getItem false envAllOk initialState .PROJECTS_PREVIEW "k").2.2 =
      [.openDB, .txnGet "projects_preview"] := by
  refine ⟨rfl, rfl, rfl, rfl, rfl⟩

/-- Claim C4: the claim states that after `clear()` resolves the database is
re-initialized into a fresh usable state, so a subsequent `setItem`/`getItem`
pair round-trips.  The code violates it: `clear()` closes the connection but
never sets `#db` to `null`, so the `load()` it performs after deletion
returns immediately on the stale reference without reopening; the run below
stores a record (which round-trips before the wipe), clears, and then finds
the connection closed (`db = some false`), no reopen attempted
(`clear` issued only the delete call), `getItem` resolving `null` and a
fresh `setItem` resolving `false` — the cache is unusable until reload. -/
theorem clear_leaves_unusable_connection :
    (getItem true envAllOk
        (setItem true envAllOk openedState .PROJECTS_PREVIEW "k"
          (.blob [1] "image/png")).1 .PROJECTS_PREVIEW "k").2.1 =
      .resolved (some (.blob [1] "image/png")) ∧
    ((clear envAllOk
        (setItem true envAllOk openedState .PROJECTS_PREVIEW "k"
          (.blob [1] "image/png")).1).1).db = some false ∧
    (clear envAllOk
        (setItem true envAllOk openedState .PROJECTS_PREVIEW "k"
          (.blob [1] "image/png")).1).2.2 = [.deleteDB] ∧
    (getItem true envAllOk
        (clear envAllOk
          (setItem true envAllOk openedState .PROJECTS_PREVIEW "k"
            (.blob [1] "image/png")).1).1 .PROJECTS_PREVIEW "k").2.1 =
      .resolved none ∧
    (setItem true envAllOk
        (clear envAllOk
          (setItem true envAllOk openedState .PROJECTS_PREVIEW "k"
            (.blob [1] "image/png")).1).1 .PROJECTS_PREVIEW "k2"
        (.blob [2] "image/png")).2.1 = .resolved false := by
  refine ⟨rfl, rfl, rfl, rfl, rfl⟩

/-- Claim C6: any burst of concurrent `get`/`set` callers triggering `load`
before a connection exists issues at most one `indexedDB.open`: the first
call caches the in-flight initialization promise, and every later call in the
burst finds it cached and awaits it instead of opening again. -/
theorem concurrent_load_single_open (avails : List Bool) (s : StorageState) :
    (runLoadCalls avails s).2 ≤ 1 := by
  induction avails generalizing s with
  | nil => exact Nat.zero_le 1
  | cons a rest ih =>
      rcases loadSync_cases a s with hc | ⟨_, hc⟩
      · simpa [runLoadCalls, hc] using ih s
      · simp [runLoadCalls, hc,
          runLoadCalls_zero rest { s with initializationPromise := some .pending }
            (by simp)]

/-- An environment in which the write transaction aborts with the
quota-exceeded error; everything else succeeds. -/
def envQuotaAbort : Env := { envAllOk with putOutcome := .abort "QuotaExceededError" }

/-- Claim C3, counterexample: the claim states that the quota-exceeded
short-circuit makes subsequent `setItem` calls resolve `false` *without any
storage-engine call* and that the short-circuit is *cleared by `clear()`*.
Concrete run: a write aborts with the quota error, setting the sticky flag; a
subsequent `setItem` under the flag still issues a put against the engine;
after a successful `clear()` the flag is still set and `setItem` with a fully
succeeding engine still resolves `false`. -/
theorem quota_flag_survives_clear_cex :
    ((setItem true envQuotaAbort openedState .PROJECTS_PREVIEW "k"
        (.blob [1] "image/png")).1).isQuotaExceed = true ∧
    (setItem true envAllOk
        (setItem true envQuotaAbort openedState .PROJECTS_PREVIEW "k"
          (.blob [1] "image/png")).1 .TASKS_PREVIEW "k2"
        (.blob [2] "image/png")).2.2 = [.txnPut "tasks_preview"] ∧
    ((clear envAllOk
        (setItem true envQuotaAbort openedState .PROJECTS_PREVIEW "k"
          (.blob [1] "image/png")).1).1).isQuotaExceed = true ∧
    (setItem true envAllOk
        (clear envAllOk
          (setItem true envQuotaAbort openedState .PROJECTS_PREVIEW "k"
            (.blob [1] "image/png")).1).1 .JOBS_PREVIEW "k3"
        (.blob [3] "image/png")).2.1 = .resolved false := by
  refine ⟨rfl, rfl, rfl, rfl⟩

/-- Claim C3, amended: once the quota flag is set, every subsequent `setItem`
— to any key in any partition — resolves `false`, and the flag is never
cleared: `setItem`, `getItem`, `clear` and `load` all leave it set (engine
calls are still attempted, since the short-circuit resolves early without
returning; only a page reload resets the flag). -/
theorem quota_flag_sticky_never_cleared (s : StorageState) (env : Env)
    (enable : Bool) (store : DatabaseStore) (id : String) (v : Value)
    (hq : s.isQuotaExceed = true) :
    (setItem enable env s store id v).2.1 = .resolved false ∧
    ((setItem enable env s store id v).1).isQuotaExceed = true ∧
    ((getItem enable env s store id).1).isQuotaExceed = true ∧
    ((clear env s).1).isQuotaExceed = true ∧
    ((load env s).1).isQuotaExceed = true := by
  have hpre := (load_preserves env s).2.1
  have h2 : ∀ t : StorageState, t.isQuotaExceed = true →
      ((load env t).1).isQuotaExceed = true := fun t ht => by
    rw [(load_preserves env t).2.1, ht]
  rcases hL : load env s with ⟨s1, ok, calls⟩
  have h1 : s1.isQuotaExceed = true := by
    rw [hL] at hpre
    simpa [hq] using hpre
  refine ⟨?_, ?_, ?_, ?_, h1⟩
  · unfold setItem
    rw [hL]
    simp only [hq, Bool.or_true, if_true, Option.getD_some]
    cases ok
    · rfl
    · repeat' split
      all_goals simp
  · unfold setItem
    rw [hL]
    simp only [hq, Bool.or_true, if_true, Option.getD_some]
    cases ok
    · exact h1
    · repeat' split
      all_goals simp [h1]
  · unfold getItem
    rw [hL]
    simp only [hq, Bool.or_true, if_true, Option.getD_some]
    split
    · exact hq
    · cases ok
      · exact h1
      · repeat' split
        all_goals simp [h1]
  · unfold clear
    dsimp only
    split
    · split <;> exact hq
    · split <;> exact h2 _ hq

/-- Claim C3, witness for the amended theorem at a concrete quota-flagged
state. -/
theorem quota_flag_sticky_never_cleared_witness :
    (setItem true envAllOk { initialState with isQuotaExceed := true }
        .PROJECTS_PREVIEW "k" (.blob [1] "image/png")).2.1 = .resolved false ∧
    ((setItem true envAllOk { initialState with isQuotaExceed := true }
        .PROJECTS_PREVIEW "k" (.blob [1] "image/png")).1).isQuotaExceed = true ∧
    ((getItem true envAllOk { initialState with isQuotaExceed := true }
        .PROJECTS_PREVIEW "k").1).isQuotaExceed = true ∧
    ((clear envAllOk { initialState with isQuotaExceed := true }).1).isQuotaExceed =
      true ∧
    ((load envAllOk { initialState with isQuotaExceed := true }).1).isQuotaExceed =
      true :=
  quota_flag_sticky_never_cleared { initialState with isQuotaExceed := true }
    envAllOk true .PROJECTS_PREVIEW "k" (.blob [1] "image/png") rfl

/-- Claim C7, counterexample: the claim states that after an open attempt
fails the connection state returns to Uninitialized, so the next call starts
a *new* open attempt.  Concrete run: the first `load` fails (one open call);
a second `load`, in an environment where an open would now succeed, issues
*no* open call and returns the same cached rejection. -/
theorem init_failure_not_retried_cex :
    (load { envAllOk with openSucceeds := false } initialState).2.2 = [.openDB] ∧
    ((load { envAllOk with openSucceeds := false } initialState).1).initializationPromise =
      some .failure ∧
    (load envAllOk
        (load { envAllOk with openSucceeds := false } initialState).1).2.1 = false ∧
    (load envAllOk
        (load { envAllOk with openSucceeds := false } initialState).1).2.2 = [] := by
  refine ⟨rfl, rfl, rfl, rfl⟩

/-- Claim C7, amended: an initialization failure is sticky, not retried.  The
rejected `#initializationPromise` is never reset, so from any state with no
connection and a cached failed initialization, a subsequent call does not
start a new open attempt: `load` returns the same cached rejection with no
engine call and an unchanged state.  Consequently `setItem` resolves `false`,
and `getItem` on a partition with a configuration entry resolves `null`, all
without any engine call; `getItem` on the unconfigured
`COMPRESSED_JOB_IMAGES` partition instead rejects before `load` is even
consulted (the separate defect of C1), likewise issuing no open attempt. -/
theorem init_failure_sticky (s : StorageState) (env : Env) (enable : Bool)
    (store : DatabaseStore) (conf : StoreConf) (id : String) (v : Value)
    (hdb : s.db = none)
    (hip : s.initializationPromise = some .failure) :
    load env s = (s, false, []) ∧
    (setItem enable env s store id v).2.1 = .resolved false ∧
    (setItem enable env s store id v).2.2 = [] ∧
    (storeConfiguration store = some conf →
      (getItem enable env s store id).2.1 = .resolved none ∧
      (getItem enable env s store id).2.2 = []) ∧
    (storeConfiguration store = none → s.isQuotaExceed = false →
      (getItem true env s store id).2.1 = .rejected ∧
      (getItem true env s store id).2.2 = []) := by
  have hload : load env s = (s, false, []) := by
    unfold load
    split
    · rfl
    · rw [hdb]
      simp only [Option.isSome_none, Bool.false_eq_true, if_false, hip]
  refine ⟨hload, ?_, ?_, ?_, ?_⟩
  · unfold setItem
    rw [hload]
    by_cases h : (!enable || s.isQuotaExceed) = true <;> simp [h]
  · unfold setItem
    rw [hload]
    by_cases h : (!enable || s.isQuotaExceed) = true <;> simp [h]
  · intro hc
    unfold getItem
    rw [hc, hload]
    by_cases h : (!enable || s.isQuotaExceed) = true <;> simp [h]
  · intro hnone hq
    unfold getItem
    rw [hnone]
    simp [hq]

/-- Claim C7, witness for the amended theorem at the concrete state produced
by a failed first open. -/
theorem init_failure_sticky_witness :
    load envAllOk (load { envAllOk with openSucceeds := false } initialState).1 =
      ((load { envAllOk with openSucceeds := false } initialState).1, false, []) ∧
    (setItem true envAllOk
        (load { envAllOk with openSucceeds := false } initialState).1
        .PROJECTS_PREVIEW "k" (.blob [1] "image/png")).2.1 = .resolved false ∧
    (setItem true envAllOk
        (load { envAllOk with openSucceeds := false } initialState).1
        .PROJECTS_PREVIEW "k" (.blob [1] "image/png")).2.2 = [] ∧
    (storeConfiguration .PROJECTS_PREVIEW = some blobStoreConf →
      (getItem true envAllOk
          (load { envAllOk with openSucceeds := false } initialState).1
          .PROJECTS_PREVIEW "k").2.1 = .resolved none ∧
      (getItem true envAllOk
          (load { envAllOk with openSucceeds := false } initialState).1
          .PROJECTS_PREVIEW "k").2.2 = []) ∧
    (storeConfiguration .PROJECTS_PREVIEW = none →
      ((load { envAllOk with openSucceeds := false } initialState).1).isQuotaExceed =
        false →
      (getItem true envAllOk
          (load { envAllOk with openSucceeds := false } initialState).1
          .PROJECTS_PREVIEW "k").2.1 = .rejected ∧
      (getItem true envAllOk
          (load { envAllOk with openSucceeds := false } initialState).1
          .PROJECTS_PREVIEW "k").2.2 = []) :=
  init_failure_sticky
    (load { envAllOk with openSucceeds := false } initialState).1 envAllOk true
    .PROJECTS_PREVIEW blobStoreConf "k" (.blob [1] "image/png") rfl rfl

/-- Claim C5: for every partition with a configuration entry and every value
accepted by its validator, `deserialize` is the exact inverse of `serialize`
(byte content and MIME type are reproduced), and consequently a `setItem`
followed by a `getItem` on the same key — against an open connection with the
cache enabled, the quota flag unset and a successfully committing engine —
resolves `true` and then yields the original value. -/
theorem serialize_deserialize_roundtrip (store : DatabaseStore) (conf : StoreConf)
    (v : Value) (s : StorageState) (env : Env) (id : String)
    (hc : storeConfiguration store = some conf)
    (hv : conf.validator v = true)
    (hdb : s.db = some true)
    (hup : s.dbUpgradedAnotherTab = false)
    (hq : s.isQuotaExceed = false)
    (hav : env.indexedDBAvailable = true)
    (hput : env.putOutcome = .success)
    (hget : env.getOutcome = .success) :
    (conf.serialize v).bind conf.deserialize = some v ∧
    (setItem true env s store id v).2.1 = .resolved true ∧
    (getItem true env (setItem true env s store id v).1 store id).2.1 =
      .resolved (some v) := by
  have hload : load env s = (s, true, []) := by
    unfold load
    simp [hav, hup, hdb]
  cases store
  case COMPRESSED_JOB_IMAGES => simp [storeConfiguration] at hc
  all_goals simp only [storeConfiguration, Option.some.injEq] at hc
  all_goals subst hc
  all_goals cases v <;> simp [blobStoreConf, bufferStoreConf, isInstance] at hv
  all_goals
    refine ⟨rfl, ?_, ?_⟩ <;>
      · simp only [getItem, setItem]
        rw [hload]
        simp [hq, hdb, hav, hup, hput, hget, load, getRecord_putRecord,
          storeConfiguration, blobStoreConf, bufferStoreConf, blob2ArrayBuffer,
          arrayBuffer2Blob, isInstance]

/-- Claim C5, witness at the `PROJECTS_PREVIEW` partition with a concrete
Blob against an open connection. -/
theorem serialize_deserialize_roundtrip_witness :
    (blobStoreConf.serialize (.blob [7] "image/png")).bind blobStoreConf.deserialize =
      some (.blob [7] "image/png") ∧
    (setItem true envAllOk openedState .PROJECTS_PREVIEW "w"
        (.blob [7] "image/png")).2.1 = .resolved true ∧
    (getItem true envAllOk
        (setItem true envAllOk openedState .PROJECTS_PREVIEW "w"
          (.blob [7] "image/png")).1 .PROJECTS_PREVIEW "w").2.1 =
      .resolved (some (.blob [7] "image/png")) :=
  serialize_deserialize_roundtrip .PROJECTS_PREVIEW blobStoreConf
    (.blob [7] "image/png") openedState envAllOk "w" rfl rfl rfl rfl rfl rfl rfl rfl

/-- Claim C8: with the cache enabled and the quota flag unset, a `setItem`
whose value fails the partition's validator resolves `false` and leaves the
stored records unchanged: the validator throws before `put` is ever reached,
and the throw is caught and converted to the `false` resolution. -/
theorem setItem_validator_failure_no_write (s : StorageState) (env : Env)
    (store : DatabaseStore) (conf : StoreConf) (id : String) (v : Value)
    (hc : storeConfiguration store = some conf)
    (hv : conf.validator v = false)
    (hq : s.isQuotaExceed = false) :
    (setItem true env s store id v).2.1 = .resolved false ∧
    (setItem true env s store id v).1.database = s.database := by
  have hpre := (load_preserves env s).1
  rcases hL : load env s with ⟨s1, ok, calls⟩
  have h1 : s1.database = s.database := by rw [hL] at hpre; exact hpre
  unfold setItem
  rw [hL, hc]
  cases ok <;> refine ⟨?_, ?_⟩ <;> simp [hv, hq, h1]

/-- Claim C8, witness: storing a string into the Blob-typed
`PROJECTS_PREVIEW` partition from the initial state. -/
theorem setItem_validator_failure_no_write_witness :
    (setItem true envAllOk initialState .PROJECTS_PREVIEW "k" (.str "oops")).2.1 =
      .resolved false ∧
    (setItem true envAllOk initialState .PROJECTS_PREVIEW "k"
        (.str "oops")).1.database = initialState.database :=
  setItem_validator_failure_no_write initialState envAllOk .PROJECTS_PREVIEW
    blobStoreConf "k" (.str "oops") rfl rfl rfl

/-- Claim C9, counterexample: the claim states that once the invalidated flag
is set *every* subsequent `getItem` resolves `null`.  At the
`COMPRESSED_JOB_IMAGES` partition (no configuration entry) `getItem` instead
rejects — the configuration destructuring throws before `load` is even
consulted — so the claim's universal quantification over partitions fails. -/
theorem invalidated_getItem_rejects_cex :
    (onversionchange openedState).dbUpgradedAnotherTab = true ∧
    (getItem true envAllOk (onversionchange openedState)
        .COMPRESSED_JOB_IMAGES "k").2.1 = .rejected := ⟨rfl, rfl⟩

/-- Claim C9, amended: once the invalidated flag is set, every subsequent
`setItem` resolves `false` and every subsequent `getItem` on a partition
*with a configuration entry* resolves `null`; the state is left untouched and
no engine call is made, so there is no automatic recovery — only a page
reload resets the flag.  (`getItem` on the unconfigured
`COMPRESSED_JOB_IMAGES` partition instead rejects, a separate defect.) -/
theorem invalidated_operations_degrade (s : StorageState) (enable : Bool)
    (env : Env) (store : DatabaseStore) (conf : StoreConf) (id : String) (v : Value)
    (hinv : s.dbUpgradedAnotherTab = true) :
    (setItem enable env s store id v).2.1 = .resolved false ∧
    (setItem enable env s store id v).1 = s ∧
    (setItem enable env s store id v).2.2 = [] ∧
    (storeConfiguration store = some conf →
      (getItem enable env s store id).2.1 = .resolved none ∧
      (getItem enable env s store id).1 = s ∧
      (getItem enable env s store id).2.2 = []) := by
  have hload : load env s = (s, false, []) := by
    unfold load
    simp [hinv]
  refine ⟨?_, ?_, ?_, fun hc => ⟨?_, ?_, ?_⟩⟩ <;>
    · first
        | (unfold setItem; rw [hload])
        | (unfold getItem; rw [hc, hload])
      by_cases h : (!enable || s.isQuotaExceed) = true <;> simp [h]

/-- Claim C9, witness at a concrete invalidated state. -/
theorem invalidated_operations_degrade_witness :
    (setItem true envAllOk { initialState with dbUpgradedAnotherTab := true }
        .PROJECTS_PREVIEW "k" (.blob [1] "image/png")).2.1 = .resolved false ∧
    (setItem true envAllOk { initialState with dbUpgradedAnotherTab := true }
        .PROJECTS_PREVIEW "k" (.blob [1] "image/png")).1 =
      { initialState with dbUpgradedAnotherTab := true } ∧
    (setItem true envAllOk { initialState with dbUpgradedAnotherTab := true }
        .PROJECTS_PREVIEW "k" (.blob [1] "image/png")).2.2 = [] ∧
    (storeConfiguration .PROJECTS_PREVIEW = some blobStoreConf →
      (getItem true envAllOk { initialState with dbUpgradedAnotherTab := true }
          .PROJECTS_PREVIEW "k").2.1 = .resolved none ∧
      (getItem true envAllOk { initialState with dbUpgradedAnotherTab := true }
          .PROJECTS_PREVIEW "k").1 =
        { initialState with dbUpgradedAnotherTab := true } ∧
      (getItem true envAllOk { initialState with dbUpgradedAnotherTab := true }
          .PROJECTS_PREVIEW "k").2.2 = []) :=
  invalidated_operations_degrade { initialState with dbUpgradedAnotherTab := true }
    true envAllOk .PROJECTS_PREVIEW blobStoreConf "k" (.blob [1] "image/png") rfl

/-- Claim C10: the `DatabaseStore` enumeration includes
`COMPRESSED_JOB_IMAGES` but the store configuration table has no entry for
it, so — even with the cache enabled and the quota flag unset — `setItem` on
that partition resolves `false` (the configuration destructuring throws
inside the `try`, which is caught) and never writes a record. -/
theorem setItem_compressed_job_images_resolves_false (s : StorageState)
    (env : Env) (id : String) (v : Value) (hq : s.isQuotaExceed = false) :
    storeConfiguration .COMPRESSED_JOB_IMAGES = none ∧
    (setItem true env s .COMPRESSED_JOB_IMAGES id v).2.1 = .resolved false ∧
    (setItem true env s .COMPRESSED_JOB_IMAGES id v).1.database = s.database := by
  have hpre := (load_preserves env s).1
  rcases hL : load env s with ⟨s1, ok, calls⟩
  have h1 : s1.database = s.database := by rw [hL] at hpre; exact hpre
  refine ⟨rfl, ?_, ?_⟩ <;>
    · unfold setItem
      rw [hL]
      cases ok <;> simp [hq, h1, storeConfiguration]

/-- Claim C10, witness at the initial state with a concrete value. -/
theorem setItem_compressed_job_images_resolves_false_witness :
    storeConfiguration .COMPRESSED_JOB_IMAGES = none ∧
    (setItem true envAllOk initialState .COMPRESSED_JOB_IMAGES "k"
        (.arrayBuffer [1, 2])).2.1 = .resolved false ∧
    (setItem true envAllOk initialState .COMPRESSED_JOB_IMAGES "k"
        (.arrayBuffer [1, 2])).1.database = initialState.database :=
  setItem_compressed_job_images_resolves_false initialState envAllOk "k"
    (.arrayBuffer [1, 2]) rfl
